import Mathlib

/-!
# Verification of the FAQ sync / retrieval core of `as-chatbot-poc`

Shallow embedding of the FAQ pipeline:
* `src/api/server/services/faq/qdrant.js` — vector index adapter,
* `src/api/server/services/faq/embeddings.js` — embedding provider adapter,
* `src/api/server/services/faq/sync.js` — sync orchestrator,
* `src/api/server/services/faq/index.js` — lexical retrieval + cache,
* the vector retrieval module (`getFaqContext` over Qdrant).

External effects (HTTP calls, the Qdrant client, the Gemini client) are
modelled as explicit outcome parameters (`Except`), and index mutations are
recorded as an explicit operation trace.  Vector elements are abstracted by a
type parameter `α` since the code never inspects individual numbers, only
array-ness and length.  String operations are defined over the character
list `String.data` so that every definition evaluates by kernel reduction.
-/

namespace FaqCore

/-! ## JavaScript string primitives -/

/-- Sum of the UTF-16 code units of a string, as produced by
`s.split('').reduce((acc, c) => acc + c.charCodeAt(0), 0)` (all characters in
play are in the basic multilingual plane, where `charCodeAt` agrees with the
code point). -/
def charSum (s : String) : Nat :=
  s.data.foldl (fun acc c => acc + c.toNat) 0

/-- The digits consumed by `parseInt(_, 10)` after sign handling. -/
def leadingDigits (cs : List Char) : List Char :=
  cs.takeWhile Char.isDigit

/-- Value of a digit list in base 10. -/
def digitsToNat (ds : List Char) : Nat :=
  ds.foldl (fun a c => a * 10 + (c.toNat - 48)) 0

/-- `parseInt(s, 10)`: skip leading whitespace, optional sign, then the
longest digit run; `none` models `NaN` (no digits). -/
def jsParseInt (s : String) : Option Int :=
  match s.data.dropWhile Char.isWhitespace with
  | '-' :: rest =>
    if (leadingDigits rest).isEmpty then none
    else some (-(digitsToNat (leadingDigits rest) : Int))
  | '+' :: rest =>
    if (leadingDigits rest).isEmpty then none
    else some (digitsToNat (leadingDigits rest) : Int)
  | cs =>
    if (leadingDigits cs).isEmpty then none
    else some (digitsToNat (leadingDigits cs) : Int)

/-- `parseInt(s, 10) || fallback`: the parse result when it is a number other
than `0`, else the fallback (`NaN` and `0` are both falsy). -/
def jsParseIntOr (s : String) (fallback : Int) : Int :=
  match jsParseInt s with
  | some n => if n = 0 then fallback else n
  | none => fallback

/-- A whole-string integer parse: `some n` iff the entire string is an
optionally signed nonempty digit run. -/
def wholeInt (s : String) : Option Int :=
  match s.data with
  | '-' :: rest =>
    if rest.isEmpty || !rest.all Char.isDigit then none
    else some (-(digitsToNat rest : Int))
  | cs =>
    if cs.isEmpty || !cs.all Char.isDigit then none
    else some (digitsToNat cs : Int)

/-- `s.slice(0, n)` for a non-negative `n`: the first `n` UTF-16 units. -/
def jsSlice (s : String) (n : Nat) : String :=
  ⟨s.data.take n⟩

/-- `s.trim()`. -/
def jsTrim (s : String) : String :=
  ⟨((s.data.dropWhile Char.isWhitespace).reverse.dropWhile Char.isWhitespace).reverse⟩

/-- `s.toLowerCase()` (ASCII range, which covers the fields exercised here;
characters outside it are unchanged by `Char.toLower` as well). -/
def jsToLower (s : String) : String :=
  ⟨s.data.map Char.toLower⟩

/-- JS truthiness of a plain string: the empty string is falsy. -/
def strTruthy (s : String) : Bool :=
  !s.data.isEmpty

/-- JS truthiness of a possibly-absent string: `undefined`/`null` and the
empty string are falsy. -/
def optTruthy : Option String → Bool
  | none => false
  | some s => strTruthy s

/-- `a || b` on a possibly-absent string: `b` when `a` is falsy. -/
def jsOrElse (a : Option String) (b : String) : String :=
  match a with
  | none => b
  | some s => if strTruthy s then s else b

/-- `a ?? b` (nullish coalescing) on a possibly-absent string. -/
def jsNullish (a : Option String) (b : Option String) : Option String :=
  match a with
  | none => b
  | some s => some s

/-- Contiguous-substring test on char lists. -/
def hasInfixAux (needle : List Char) : List Char → Bool
  | [] => needle.isEmpty
  | c :: cs => needle.isPrefixOf (c :: cs) || hasInfixAux needle cs

/-- `hay.includes(needle)`. -/
def jsIncludes (hay needle : String) : Bool :=
  hasInfixAux needle.data hay.data

/-- The whitespace-separated words of a string: the result of
`s.split(/\s+/).map(t => t.trim()).filter(Boolean)` (splitting on whitespace
runs, dropping the empty fragments, leaves exactly the maximal non-whitespace
runs, each already trimmed). -/
def wsTokensAux (cur : List Char) : List Char → List String
  | [] => if cur.isEmpty then [] else [⟨cur.reverse⟩]
  | c :: cs =>
    if c.isWhitespace then
      if cur.isEmpty then wsTokensAux [] cs
      else ⟨cur.reverse⟩ :: wsTokensAux [] cs
    else wsTokensAux (c :: cur) cs

/-- Tokenization used by the lexical strategy. -/
def wsTokens (s : String) : List String :=
  wsTokensAux [] s.data

/-! ## Vector index adapter (`qdrant.js`) — point id mapping -/

/-- `id.startsWith('faq_')`. -/
def idHasFaqTag (id : String) : Bool :=
  "faq_".data.isPrefixOf id.data

/-- `id.replace('faq_', '')` for an id that starts with `faq_`: the first
occurrence of the pattern is the leading prefix, so the first four
characters are removed. -/
def stripFaqTag (id : String) : String :=
  ⟨id.data.drop 4⟩

/-- The numeric point id computed inside `upsertPoints` (`qdrant.js`): ids
starting with `'faq_'` first have that prefix removed, then
`parseInt(hash, 10) || Math.abs(charSum(hash))`; other ids go through
`parseInt(id, 10) || Math.abs(charSum(id))` directly.  `Math.abs` acts on the
character-code sum, which is already non-negative. -/
def preparePointId (id : String) : Int :=
  if idHasFaqTag id then
    let hash := stripFaqTag id
    jsParseIntOr hash (Int.ofNat (charSum hash))
  else
    jsParseIntOr id (Int.ofNat (charSum id))

/-- The id mapping as the claim words it: if the identifier parses as an
integer (as a whole), that integer is used; otherwise the absolute value of
the sum of the identifier's character codes. -/
def claimedPointId (id : String) : Int :=
  match wholeInt id with
  | some n => n
  | none => Int.ofNat (charSum id)

/-- The id mapping as amended: strip a leading `faq_` prefix if present, then
parse the remainder with `parseInt` semantics; when the parse yields no
number or yields `0`, use the character-code sum of the remainder instead. -/
def amendedPointId (id : String) : Int :=
  let hash := if idHasFaqTag id then stripFaqTag id else id
  jsParseIntOr hash (Int.ofNat (charSum hash))

/-- `true` exactly on `Except.error`. -/
def isError {ε β : Type} : Except ε β → Bool
  | Except.error _ => true
  | Except.ok _ => false

/-! ## Embedding provider adapter (`embeddings.js`)

The remote Gemini call `model.embedContent` is an oracle
`remote : String → Except String (Option (List α))`: an exception, or a
response whose `result.embedding?.values` is either absent/malformed
(`none`) or an array (`some`). -/

/-- `generateEmbedding` (`embeddings.js`): rejects a missing or falsy API
key, a text that is empty after trimming, and a whitespace-only key; then
performs the remote call and rejects an absent or empty `values` array,
returning the provider's vector unchanged otherwise. -/
def generateEmbedding {α : Type} (apiKey : Option String)
    (remote : String → Except String (Option (List α))) (text : String) :
    Except String (List α) :=
  match apiKey with
  | none => Except.error "GOOGLE_KEY is not configured"
  | some key =>
    if !strTruthy key then Except.error "GOOGLE_KEY is not configured"
    else if !strTruthy (jsTrim text) then
      Except.error "Text must be a non-empty string"
    else if !strTruthy (jsTrim key) then
      Except.error "GOOGLE_KEY is empty or not set in environment variables"
    else
      match remote text with
      | Except.error e => Except.error e
      | Except.ok none => Except.error "Failed to generate embedding: empty result"
      | Except.ok (some v) =>
        if v.isEmpty then Except.error "Failed to generate embedding: empty result"
        else Except.ok v

/-- `Promise.all(list.map(f))`: all results in input order, or the first
failure failing the whole batch. -/
def promiseAll {σ β ε : Type} (f : σ → Except ε β) : List σ → Except ε (List β)
  | [] => Except.ok []
  | x :: xs =>
    match f x with
    | Except.error e => Except.error e
    | Except.ok y =>
      match promiseAll f xs with
      | Except.error e => Except.error e
      | Except.ok ys => Except.ok (y :: ys)

/-- The batch loop of `generateEmbeddingsBatch`: `texts.slice(i, i + 10)`
chunks processed sequentially, each chunk with `Promise.all`; the 100 ms
inter-batch delay has no effect on the computed value.  The ten-element
pattern realises the `batchSize = 10` slicing structurally. -/
def processBatches {α : Type} (fn : String → Except String (List α)) :
    List String → Except String (List (List α))
  | [] => Except.ok []
  | t0 :: t1 :: t2 :: t3 :: t4 :: t5 :: t6 :: t7 :: t8 :: t9 :: r0 :: rest =>
    match promiseAll fn [t0, t1, t2, t3, t4, t5, t6, t7, t8, t9] with
    | Except.error e => Except.error e
    | Except.ok rs =>
      match processBatches fn (r0 :: rest) with
      | Except.error e => Except.error e
      | Except.ok more => Except.ok (rs ++ more)
  | batch => promiseAll fn batch

/-- `generateEmbeddingsBatch` (`embeddings.js`): empty input yields an empty
result; otherwise the chunked batch loop over `generateEmbedding`. -/
def generateEmbeddingsBatch {α : Type} (apiKey : Option String)
    (remote : String → Except String (Option (List α)))
    (texts : List String) : Except String (List (List α)) :=
  if texts.isEmpty then Except.ok []
  else processBatches (generateEmbedding apiKey remote) texts

/-! ## Sync orchestrator (`sync.js`) and vector index writes (`qdrant.js`) -/

/-- A raw FAQ object from the source feed; every field may be absent, and an
empty string behaves like an absent field under JS truthiness. -/
structure Faq where
  id : Option String
  questionEnglish : Option String
  questionHindi : Option String
  answerEnglish : Option String
  answerHindi : Option String
  category : Option String

/-- `combineFaqText` (`sync.js`): push each truthy field in the order
English question, English answer, Hindi question, Hindi answer; join with a
space and trim. -/
def combineFaqText (faq : Faq) : String :=
  let parts :=
    (if optTruthy faq.questionEnglish then [faq.questionEnglish.getD ""] else []) ++
    (if optTruthy faq.answerEnglish then [faq.answerEnglish.getD ""] else []) ++
    (if optTruthy faq.questionHindi then [faq.questionHindi.getD ""] else []) ++
    (if optTruthy faq.answerHindi then [faq.answerHindi.getD ""] else [])
  jsTrim (String.intercalate " " parts)

/-- `getFaqId` (`sync.js`): a falsy `faq.id` is a validation error, else the
id coerced to a string. -/
def getFaqId (faq : Faq) : Except String String :=
  if !optTruthy faq.id then Except.error "FAQ missing required id field"
  else Except.ok (faq.id.getD "")

/-- The record built for one FAQ inside `syncFaqs`. -/
structure FaqData where
  faqId : String
  questionEnglish : String
  questionHindi : String
  answerEnglish : String
  answerHindi : String
  category : String
  text : String

/-- One element of the `faqs.map` record-building stage of `syncFaqs`:
`faq.field || ''` for each payload field and the combined text. -/
def buildFaqDatum (faq : Faq) : Except String FaqData :=
  match getFaqId faq with
  | Except.error e => Except.error e
  | Except.ok faqId =>
    Except.ok
      ⟨faqId, jsOrElse faq.questionEnglish "", jsOrElse faq.questionHindi "",
        jsOrElse faq.answerEnglish "", jsOrElse faq.answerHindi "",
        jsOrElse faq.category "", combineFaqText faq⟩

/-- The record-building `faqs.map(...)` of `syncFaqs`: a synchronous map that
aborts at the first record whose id is missing. -/
def mapFaqData (faqs : List Faq) : Except String (List FaqData) :=
  promiseAll buildFaqDatum faqs

/-- The payload stored with each vector point. -/
structure Payload where
  questionEnglish : String
  questionHindi : String
  answerEnglish : String
  answerHindi : String
  category : String
  text : String

/-- A point handed to `upsertPoints`: external string id, a vector that may
be missing or a non-array (`none`), and the payload. -/
structure RawPoint (α : Type) where
  id : String
  vector : Option (List α)
  payload : Payload

/-- A point after id mapping, as sent to the Qdrant client. -/
structure PreparedPoint (α : Type) where
  id : Int
  vector : List α
  payload : Payload

/-- A mutation of the vector index backing store. -/
inductive IndexOp (α : Type) where
  | createCollection (name : String) (dims : Nat)
  | upsert (points : List (PreparedPoint α))

/-- Whether an operation writes points. -/
def IndexOp.isUpsert {α : Type} : IndexOp α → Bool
  | IndexOp.upsert _ => true
  | IndexOp.createCollection _ _ => false

/-- Validation and id mapping applied to one point inside `upsertPoints`
(the dimension comparison against 3072 only logs a warning and does not
change the result). -/
def preparePoint {α : Type} (point : RawPoint α) : Except String (PreparedPoint α) :=
  if !strTruthy point.id then Except.error "Point missing ID"
  else
    match point.vector with
    | none => Except.error "Point missing or invalid vector"
    | some v => Except.ok ⟨preparePointId point.id, v, point.payload⟩

/-- `upsertPoints` (`qdrant.js`): no-op on empty input; otherwise validate
and map every point (aborting on the first bad one), then perform one
acknowledged upsert whose own outcome is the `upsertOutcome` oracle.  The
returned list is the trace of index mutations performed. -/
def upsertPoints {α : Type} (points : List (RawPoint α))
    (upsertOutcome : Except String Unit) : Except String (List (IndexOp α)) :=
  if points.isEmpty then Except.ok []
  else
    match promiseAll preparePoint points with
    | Except.error e => Except.error e
    | Except.ok prepared =>
      match upsertOutcome with
      | Except.error e => Except.error e
      | Except.ok _ => Except.ok [IndexOp.upsert prepared]

/-- `ensureCollection` (`qdrant.js`): list the collections (`listOutcome`
oracle); if the target name is absent, create it with the configured
dimensions (`createOutcome` oracle).  Returns the trace of index mutations
and the overall outcome. -/
def ensureCollection {α : Type} (listOutcome : Except String (List String))
    (createOutcome : Except String Unit) (collName : String) (dims : Nat) :
    List (IndexOp α) × Except String Unit :=
  match listOutcome with
  | Except.error e => ([], Except.error e)
  | Except.ok names =>
    if names.contains collName then ([], Except.ok ())
    else
      match createOutcome with
      | Except.error e => ([], Except.error e)
      | Except.ok _ => ([IndexOp.createCollection collName dims], Except.ok ())

/-- The body of the source feed response: an array of FAQ objects, or any
other JSON shape. -/
inductive JsonData where
  | arr (faqs : List Faq)
  | notArr

/-- `fetchFaqs` (`sync.js`): unconfigured URL short-circuits to an empty
list; a fetch failure propagates; a non-array body becomes an empty list. -/
def fetchFaqsSync (urlConfigured : Bool) (outcome : Except String JsonData) :
    Except String (List Faq) :=
  if !urlConfigured then Except.ok []
  else
    match outcome with
    | Except.error e => Except.error e
    | Except.ok (JsonData.arr faqs) => Except.ok faqs
    | Except.ok JsonData.notArr => Except.ok []

/-- The report returned by `syncFaqs`. -/
structure SyncReport where
  synced : Nat
  updated : Nat
  errors : Nat

/-- A complete sync run: the index mutations performed and the outcome. -/
structure SyncRun (α : Type) where
  ops : List (IndexOp α)
  result : Except String SyncReport

/-- `syncFaqs` (`sync.js`): ensure collection → fetch → short-circuit on an
empty list → build records → embed (the `embedBatch` stage, injected) →
check the count → map to points → upsert.  Every stage failure aborts the
run and propagates. -/
def syncFaqs {α : Type} (listOutcome : Except String (List String))
    (createOutcome : Except String Unit) (urlConfigured : Bool)
    (fetchOutcome : Except String JsonData)
    (embedBatch : List String → Except String (List (List α)))
    (upsertOutcome : Except String Unit) (collName : String) (dims : Nat) :
    SyncRun α :=
  let ens : List (IndexOp α) × Except String Unit :=
    ensureCollection listOutcome createOutcome collName dims
  match ens.2 with
  | Except.error e => ⟨ens.1, Except.error e⟩
  | Except.ok _ =>
    match fetchFaqsSync urlConfigured fetchOutcome with
    | Except.error e => ⟨ens.1, Except.error e⟩
    | Except.ok faqs =>
      if faqs.isEmpty then ⟨ens.1, Except.ok ⟨0, 0, 0⟩⟩
      else
        match mapFaqData faqs with
        | Except.error e => ⟨ens.1, Except.error e⟩
        | Except.ok faqData =>
          match embedBatch (faqData.map FaqData.text) with
          | Except.error e => ⟨ens.1, Except.error e⟩
          | Except.ok embeddings =>
            if embeddings.length ≠ faqData.length then
              ⟨ens.1, Except.error "Embedding count mismatch"⟩
            else
              let qdrantPoints := List.zipWith
                (fun (faq : FaqData) emb =>
                  (⟨faq.faqId, some emb,
                    ⟨faq.questionEnglish, faq.questionHindi, faq.answerEnglish,
                      faq.answerHindi, faq.category, faq.text⟩⟩ : RawPoint α))
                faqData embeddings
              match upsertPoints qdrantPoints upsertOutcome with
              | Except.error e => ⟨ens.1, Except.error e⟩
              | Except.ok ops₁ =>
                ⟨ens.1 ++ ops₁, Except.ok ⟨faqData.length, 0, 0⟩⟩

/-! ## Lexical retrieval and cache (`index.js`) -/

/-- A raw FAQ object as the lexical strategy sees it, with every historical
field-name variant the code reads. -/
structure LexFaq where
  question : Option String
  questionEnglish : Option String
  title : Option String
  answer : Option String
  answerEnglish : Option String
  response : Option String
  questionHindi : Option String
  answerHindi : Option String

/-- `a ?? b ?? c ?? d` followed by `String(...)`: first present value, else
the default. -/
def nullishChain3 (a b c : Option String) (d : String) : String :=
  match jsNullish a (jsNullish b c) with
  | none => d
  | some s => s

/-- The lower-cased concatenation
`` `${question} ${answer} ${questionHindi} ${answerHindi}` `` scored by the
lexical strategy. -/
def lexCombined (faq : LexFaq) : String :=
  let question := jsToLower (nullishChain3 faq.question faq.questionEnglish faq.title "")
  let answer := jsToLower (nullishChain3 faq.answer faq.answerEnglish faq.response "")
  let questionHindi := jsToLower (nullishChain3 faq.questionHindi none none "")
  let answerHindi := jsToLower (nullishChain3 faq.answerHindi none none "")
  question ++ " " ++ answer ++ " " ++ questionHindi ++ " " ++ answerHindi

/-- The tokenization of the query used by the lexical strategy:
`query.toLowerCase().split(/\s+/).map(t => t.trim()).filter(Boolean)`. -/
def lexTokens (q : String) : List String :=
  wsTokens (jsToLower q)

/-- `tokens.reduce((acc, token) => acc + (combined.includes(token) ? 1 : 0), 0)`. -/
def lexScore (tokens : List String) (faq : LexFaq) : Nat :=
  tokens.foldl (fun acc token => acc + (if jsIncludes (lexCombined faq) token then 1 else 0)) 0

/-- One scored candidate: `{ score, faq, index }`. -/
structure ScoredFaq where
  score : Nat
  faq : LexFaq
  index : Nat

/-- The comparator `(a, b) => b.score - a.score`, ties broken by
`a.index - b.index`, read as the "comes no later than" relation. -/
def lexRel (a b : ScoredFaq) : Prop :=
  b.score < a.score ∨ (a.score = b.score ∧ a.index ≤ b.index)

instance lexRelDecidable : DecidableRel lexRel := fun a b => by
  unfold lexRel
  exact inferInstance

instance lexRelTotal : IsTotal ScoredFaq lexRel := ⟨by
  intro a b
  unfold lexRel
  omega⟩

instance lexRelTrans : IsTrans ScoredFaq lexRel := ⟨by
  intro a b c hab hbc
  unfold lexRel at hab hbc ⊢
  omega⟩

/-- The scored-and-filtered candidate list of `selectRelevantFaqs`. -/
def lexScored (tokens : List String) (faqs : List LexFaq) : List ScoredFaq :=
  (faqs.enum.map (fun p => (⟨lexScore tokens p.2, p.2, p.1⟩ : ScoredFaq))).filter
    (fun s => 0 < s.score)

/-- `selectRelevantFaqs` (`index.js`): empty list → empty; falsy or
non-string query, empty token list, or no positive score → the first
`limit` FAQs; else the scored candidates sorted by the comparator and
truncated.  The comparator never returns 0 on distinct elements (indices are
distinct), so it is a strict total order and any correct sort — in
particular `Array.prototype.sort` — produces the unique `lexRel`-sorted
permutation, modelled by `List.insertionSort`. -/
def selectRelevantFaqs (limit : Nat) (faqs : List LexFaq) (query : Option String) :
    List LexFaq :=
  if faqs.isEmpty then []
  else
    match query with
    | none => faqs.take limit
    | some q =>
      if !strTruthy q then faqs.take limit
      else
        let tokens := lexTokens q
        if tokens.isEmpty then faqs.take limit
        else
          let scored := lexScored tokens faqs
          if scored.isEmpty then faqs.take limit
          else ((List.insertionSort lexRel scored).take limit).map ScoredFaq.faq

/-- `formatFaqContext` (`index.js`): numbered Question/Answer blocks joined
by a blank line, sliced to the configured character budget. -/
def formatFaqContext (charLimit : Nat) (faqs : List LexFaq) : String :=
  if faqs.isEmpty then ""
  else
    let formatted := String.intercalate "\n\n" (faqs.enum.map (fun p =>
      "FAQ " ++ toString (p.1 + 1) ++ ":\nQuestion: " ++
        nullishChain3 p.2.question p.2.questionEnglish p.2.title "Question unavailable" ++
        "\nAnswer: " ++
        nullishChain3 p.2.answer p.2.answerEnglish p.2.response "Answer unavailable"))
    jsSlice formatted charLimit

/-- The single cache slot of `index.js`: `{ value, expiresAt }` where a
`null` value marks the never-populated state. -/
structure FaqCache where
  value : Option (List LexFaq)
  expiresAt : Nat

/-- The body of the lexical source feed response. -/
inductive LexJson where
  | arr (faqs : List LexFaq)
  | notArr

/-- Observable outcome of one `fetchFaqs` call (`index.js`): the returned
list, the cache state afterwards, and whether the HTTP fetch was invoked. -/
structure FetchOut where
  faqs : List LexFaq
  cache : FaqCache
  fetched : Bool

/-- The `try`/`catch` body of `fetchFaqs` (`index.js`) once the cache is
cold or stale: on success a non-array body becomes `[]`, the slot is
replaced with expiry `now + ttl`; on failure the previous value (or `[]`) is
returned and the slot is left unchanged. -/
def fetchFaqsTry (ttl : Nat) (cache : FaqCache) (now : Nat)
    (outcome : Except String LexJson) : FetchOut :=
  match outcome with
  | Except.ok (LexJson.arr faqs) => ⟨faqs, ⟨some faqs, now + ttl⟩, true⟩
  | Except.ok LexJson.notArr => ⟨[], ⟨some [], now + ttl⟩, true⟩
  | Except.error _ => ⟨cache.value.getD [], cache, true⟩

/-- `fetchFaqs` (`index.js`): unconfigured URL short-circuits; a populated,
unexpired slot (`cache.value && cache.expiresAt > now`; note the empty array
is truthy) is returned without fetching; otherwise the fetch body runs. -/
def fetchFaqsCached (urlConfigured : Bool) (ttl : Nat) (cache : FaqCache)
    (now : Nat) (outcome : Except String LexJson) : FetchOut :=
  if !urlConfigured then ⟨[], cache, false⟩
  else
    match cache.value with
    | some v =>
      if now < cache.expiresAt then ⟨v, cache, false⟩
      else fetchFaqsTry ttl cache now outcome
    | none => fetchFaqsTry ttl cache now outcome

/-! ## Vector retrieval (the Qdrant-backed `getFaqContext` module) -/

/-- Result limit of both retrieval strategies (`DEFAULT_LIMIT`, default of
`Number(FAQ_MAX_RESULTS) || 5`). -/
def DEFAULT_LIMIT : Nat := 5

/-- Context character budget (`CONTEXT_CHAR_LIMIT`, default of
`Number(FAQ_CONTEXT_CHAR_LIMIT) || 2000`). -/
def CONTEXT_CHAR_LIMIT : Nat := 2000

/-- Similarity threshold of the vector strategy (`SCORE_THRESHOLD = 0.5`). -/
def SCORE_THRESHOLD : Rat := 1 / 2

/-- The payload stored on a point, as returned by the Qdrant client. -/
structure VPayload where
  questionEnglish : Option String
  questionHindi : Option String
  answerEnglish : Option String
  answerHindi : Option String
  category : Option String
  text : Option String

/-- One raw hit from `client.search`. -/
structure ClientHit where
  id : Int
  score : Rat
  payload : VPayload

/-- One mapped result of `searchVectors`: `{ faqId, score, ...payload }`. -/
structure VHit where
  faqId : Int
  score : Rat
  questionEnglish : Option String
  questionHindi : Option String
  answerEnglish : Option String
  answerHindi : Option String
  category : Option String
  text : Option String

/-- `searchVectors` (`qdrant.js`): forward the query to the client
(`clientSearch` oracle) and flatten each hit's payload into the result. -/
def searchVectors {α : Type}
    (clientSearch : List α → Nat → Rat → Except String (List ClientHit))
    (queryVector : List α) (limit : Nat) (scoreThreshold : Rat) :
    Except String (List VHit) :=
  match clientSearch queryVector limit scoreThreshold with
  | Except.error e => Except.error e
  | Except.ok hits =>
    Except.ok (hits.map (fun h =>
      ⟨h.id, h.score, h.payload.questionEnglish, h.payload.questionHindi,
        h.payload.answerEnglish, h.payload.answerHindi, h.payload.category,
        h.payload.text⟩))

/-- `formatFaqContext` of the vector retrieval module: identical rendering
with `questionEnglish || 'Question unavailable'` field access and the fixed
2000-character budget. -/
def formatFaqContextV (faqs : List VHit) : String :=
  if faqs.isEmpty then ""
  else
    let formatted := String.intercalate "\n\n" (faqs.enum.map (fun p =>
      "FAQ " ++ toString (p.1 + 1) ++ ":\nQuestion: " ++
        jsOrElse p.2.questionEnglish "Question unavailable" ++
        "\nAnswer: " ++ jsOrElse p.2.answerEnglish "Answer unavailable"))
    jsSlice formatted CONTEXT_CHAR_LIMIT

/-- The vector-strategy `getFaqContext`: guard the query
(`!query || typeof query !== 'string' || query.trim().length === 0`), embed
the trimmed query (`embedQuery` stage, injected), treat an embedding
failure or an empty/non-array embedding as "no context", search with the
fixed limit and threshold, treat a search failure or an empty result as "no
context", else format.  The `catch` turns every stage exception into
`null`, never re-raising. -/
def getFaqContextV {α : Type} (embedQuery : String → Except String (List α))
    (clientSearch : List α → Nat → Rat → Except String (List ClientHit))
    (query : Option String) : Option String :=
  match query with
  | none => none
  | some q =>
    if !strTruthy q then none
    else if !strTruthy (jsTrim q) then none
    else
      match embedQuery (jsTrim q) with
      | Except.error _ => none
      | Except.ok emb =>
        if emb.isEmpty then none
        else
          match searchVectors clientSearch emb DEFAULT_LIMIT SCORE_THRESHOLD with
          | Except.error _ => none
          | Except.ok hits =>
            if hits.isEmpty then none
            else some (formatFaqContextV hits)

end FaqCore

/-! ## Helper lemmas for the batch loop -/

namespace FaqCore

theorem promiseAll_ok {σ β ε : Type} (f : σ → Except ε β) :
    ∀ (xs : List σ) (ys : List β), promiseAll f xs = Except.ok ys →
      List.Forall₂ (fun x y => f x = Except.ok y) xs ys := by
  intro xs
  induction xs with
  | nil =>
    intro ys h
    simp only [promiseAll] at h
    injection h with h
    rw [← h]
    exact List.Forall₂.nil
  | cons x xs ih =>
    intro ys h
    simp only [promiseAll] at h
    cases hf : f x with
    | error e => rw [hf] at h; exact absurd h (by simp)
    | ok y =>
      rw [hf] at h
      cases hr : promiseAll f xs with
      | error e => rw [hr] at h; exact absurd h (by simp)
      | ok ys' =>
        rw [hr] at h
        injection h with h
        rw [← h]
        exact List.Forall₂.cons hf (ih ys' hr)

theorem processBatches_catchall {α : Type} (fn : String → Except String (List α))
    (batch : List String) (h1 : batch = [] → False)
    (h2 : ∀ (t0 t1 t2 t3 t4 t5 t6 t7 t8 t9 r0 : String) (rest : List String),
      batch = t0 :: t1 :: t2 :: t3 :: t4 :: t5 :: t6 :: t7 :: t8 :: t9 :: r0 :: rest → False) :
    processBatches fn batch = promiseAll fn batch := by
  rw [processBatches.eq_def]
  split
  · exact absurd rfl h1
  · rename_i t0 t1 t2 t3 t4 t5 t6 t7 t8 t9 r0 rest
    exact absurd rfl (h2 t0 t1 t2 t3 t4 t5 t6 t7 t8 t9 r0 rest)
  · rfl

theorem processBatches_ok {α : Type} (fn : String → Except String (List α)) :
    ∀ (texts : List String) (out : List (List α)),
      processBatches fn texts = Except.ok out →
      List.Forall₂ (fun t v => fn t = Except.ok v) texts out := by
  intro texts
  induction texts using processBatches.induct fn with
  | case1 =>
    intro out h
    simp only [processBatches] at h
    injection h with h
    rw [← h]
    exact List.Forall₂.nil
  | case2 t0 t1 t2 t3 t4 t5 t6 t7 t8 t9 r0 rest e hb =>
    intro out h
    simp only [processBatches, hb] at h
    exact Except.noConfusion h
  | case3 t0 t1 t2 t3 t4 t5 t6 t7 t8 t9 r0 rest rs hb e hr ih =>
    intro out h
    simp only [processBatches, hb, hr] at h
    exact Except.noConfusion h
  | case4 t0 t1 t2 t3 t4 t5 t6 t7 t8 t9 r0 rest rs hb more hr ih =>
    intro out h
    simp only [processBatches, hb, hr] at h
    injection h with h
    rw [← h]
    exact List.rel_append (promiseAll_ok fn _ rs hb) (ih more hr)
  | case5 batch h1 h2 =>
    intro out h
    rw [processBatches_catchall fn batch h1 h2] at h
    exact promiseAll_ok fn batch out h

theorem forall₂_exists_mem_left {γ δ : Type} {R : γ → δ → Prop} :
    ∀ {l₁ : List γ} {l₂ : List δ}, List.Forall₂ R l₁ l₂ → ∀ {x : γ}, x ∈ l₁ →
      ∃ y ∈ l₂, R x y := by
  intro l₁ l₂ h
  induction h with
  | nil => intro x hx; exact absurd hx (List.not_mem_nil x)
  | cons h1 h2 ih =>
    intro x hx
    rcases List.mem_cons.mp hx with rfl | hx'
    · exact ⟨_, List.mem_cons_self _ _, h1⟩
    · obtain ⟨y, hy, hr⟩ := ih hx'
      exact ⟨y, List.mem_cons_of_mem _ hy, hr⟩

theorem generateEmbedding_text_falsy {α : Type} (apiKey : Option String)
    (remote : String → Except String (Option (List α))) (text : String)
    (ht : strTruthy (jsTrim text) = false) :
    isError (generateEmbedding apiKey remote text) = true := by
  cases apiKey with
  | none => rfl
  | some key =>
    by_cases hk : strTruthy key <;> simp [generateEmbedding, hk, ht, isError]

theorem ensureCollection_no_upsert {α : Type} (listOutcome : Except String (List String))
    (createOutcome : Except String Unit) (collName : String) (dims : Nat) :
    ∀ op ∈ (ensureCollection listOutcome createOutcome collName dims :
      List (IndexOp α) × Except String Unit).1, op.isUpsert = false := by
  intro op hop
  unfold ensureCollection at hop
  cases listOutcome with
  | error e => exact absurd hop (List.not_mem_nil op)
  | ok names =>
    by_cases hc : collName ∈ names
    · simp [hc] at hop
    · cases createOutcome with
      | error e => simp [hc] at hop
      | ok u =>
        simp [hc] at hop
        rw [hop]
        rfl

theorem combineFaqText_falsy (faq : Faq)
    (h1 : optTruthy faq.questionEnglish = false)
    (h2 : optTruthy faq.answerEnglish = false)
    (h3 : optTruthy faq.questionHindi = false)
    (h4 : optTruthy faq.answerHindi = false) :
    combineFaqText faq = "" := by
  unfold combineFaqText
  rw [h1, h2, h3, h4]
  rfl

theorem jsSlice_length_le (s : String) (n : Nat) : (jsSlice s n).length ≤ n := by
  unfold jsSlice
  show (s.data.take n).length ≤ n
  exact List.length_take_le n s.data

theorem isEmpty_false_of_ne_nil {γ : Type} {l : List γ} (h : l ≠ []) :
    l.isEmpty = false := by
  cases l with
  | nil => exact absurd rfl h
  | cons a as => rfl

theorem take_ne_nil_of_pos {γ : Type} {l : List γ} {n : Nat} (hn : 0 < n)
    (h : l ≠ []) : l.take n ≠ [] := by
  cases l with
  | nil => exact absurd rfl h
  | cons a as =>
    cases n with
    | zero => exact absurd hn (Nat.lt_irrefl 0)
    | succ m => simp

theorem lexScored_mem (tokens : List String) (faqs : List LexFaq) (s : ScoredFaq)
    (hs : s ∈ lexScored tokens faqs) :
    s.score = lexScore tokens s.faq ∧ 0 < s.score := by
  unfold lexScored at hs
  obtain ⟨hs1, hs2⟩ := List.mem_filter.mp hs
  obtain ⟨p, hp, heq⟩ := List.mem_map.mp hs1
  constructor
  · rw [← heq]
  · simpa using hs2

theorem insertionSort_scored_mem (tokens : List String) (faqs : List LexFaq)
    (s : ScoredFaq) (hs : s ∈ List.insertionSort lexRel (lexScored tokens faqs)) :
    s.score = lexScore tokens s.faq ∧ 0 < s.score :=
  lexScored_mem tokens faqs s
    ((List.perm_insertionSort lexRel (lexScored tokens faqs)).subset hs)

theorem selectRelevantFaqs_none (limit : Nat) (faqs : List LexFaq)
    (hne : faqs ≠ []) :
    selectRelevantFaqs limit faqs none = faqs.take limit := by
  simp [selectRelevantFaqs, isEmpty_false_of_ne_nil hne]

theorem selectRelevantFaqs_falsy (limit : Nat) (faqs : List LexFaq) (q : String)
    (hne : faqs ≠ []) (hq : strTruthy q = false) :
    selectRelevantFaqs limit faqs (some q) = faqs.take limit := by
  simp [selectRelevantFaqs, isEmpty_false_of_ne_nil hne, hq]

theorem selectRelevantFaqs_no_tokens (limit : Nat) (faqs : List LexFaq)
    (q : String) (hne : faqs ≠ []) (htok : lexTokens q = []) :
    selectRelevantFaqs limit faqs (some q) = faqs.take limit := by
  by_cases hq : strTruthy q
  · simp [selectRelevantFaqs, isEmpty_false_of_ne_nil hne, hq, htok]
  · simp [selectRelevantFaqs, isEmpty_false_of_ne_nil hne, hq]

theorem selectRelevantFaqs_no_positive (limit : Nat) (faqs : List LexFaq)
    (q : String) (hne : faqs ≠ [])
    (hsc : lexScored (lexTokens q) faqs = []) :
    selectRelevantFaqs limit faqs (some q) = faqs.take limit := by
  by_cases hq : strTruthy q
  · by_cases htok : lexTokens q = []
    · simp [selectRelevantFaqs, isEmpty_false_of_ne_nil hne, hq, htok]
    · simp [selectRelevantFaqs, isEmpty_false_of_ne_nil hne, hq,
        isEmpty_false_of_ne_nil htok, hsc]
  · simp [selectRelevantFaqs, isEmpty_false_of_ne_nil hne, hq]

theorem selectRelevantFaqs_scored (limit : Nat) (faqs : List LexFaq)
    (q : String) (hne : faqs ≠ []) (hq : strTruthy q = true)
    (htok : lexTokens q ≠ []) (hsc : lexScored (lexTokens q) faqs ≠ []) :
    selectRelevantFaqs limit faqs (some q) =
      ((List.insertionSort lexRel (lexScored (lexTokens q) faqs)).take limit).map
        ScoredFaq.faq := by
  simp [selectRelevantFaqs, isEmpty_false_of_ne_nil hne, hq,
    isEmpty_false_of_ne_nil htok, isEmpty_false_of_ne_nil hsc]

end FaqCore

/-! ## C3 -/

/-- C3: when the batch-embedding stage succeeds but returns a count of
embeddings different from the count of built FAQ records, `syncFaqs` fails
with the count-mismatch error and the run performs no upsert — the point
store is never written by the failed run. -/
theorem c3_mismatch_aborts (α : Type) (listOutcome : Except String (List String))
    (createOutcome : Except String Unit) (urlConfigured : Bool)
    (fetchOutcome : Except String FaqCore.JsonData)
    (embedBatch : List String → Except String (List (List α)))
    (upsertOutcome : Except String Unit) (collName : String) (dims : Nat)
    (faqs : List FaqCore.Faq) (faqData : List FaqCore.FaqData)
    (embeddings : List (List α))
    (hens : (FaqCore.ensureCollection listOutcome createOutcome collName dims :
      List (FaqCore.IndexOp α) × Except String Unit).2 = Except.ok ())
    (hfetch : FaqCore.fetchFaqsSync urlConfigured fetchOutcome = Except.ok faqs)
    (hne : faqs ≠ [])
    (hbuild : FaqCore.mapFaqData faqs = Except.ok faqData)
    (hembed : embedBatch (faqData.map FaqCore.FaqData.text) = Except.ok embeddings)
    (hmis : embeddings.length ≠ faqData.length) :
    (FaqCore.syncFaqs listOutcome createOutcome urlConfigured fetchOutcome
        embedBatch upsertOutcome collName dims).result =
      Except.error "Embedding count mismatch" ∧
    ∀ op ∈ (FaqCore.syncFaqs listOutcome createOutcome urlConfigured fetchOutcome
        embedBatch upsertOutcome collName dims).ops,
      FaqCore.IndexOp.isUpsert op = false := by
  have hne' : faqs.isEmpty = false := by
    cases faqs with
    | nil => exact absurd rfl hne
    | cons a as => rfl
  constructor
  · simp [FaqCore.syncFaqs, hens, hfetch, hbuild, hembed, hne', hmis]
  · intro op hop
    simp [FaqCore.syncFaqs, hens, hfetch, hbuild, hembed, hne', hmis] at hop
    exact FaqCore.ensureCollection_no_upsert listOutcome createOutcome collName dims op hop

/-- C3 (witness): the theorem applied to a one-record source whose embedding
stage is stubbed to return two embeddings. -/
theorem c3_mismatch_aborts_witness :
    (FaqCore.syncFaqs (Except.ok ["faq_embeddings"]) (Except.ok ()) true
        (Except.ok (FaqCore.JsonData.arr
          [⟨some "1", some "q", none, some "a", none, none⟩]))
        (fun _ => Except.ok ([[1], [2]] : List (List Int))) (Except.ok ())
        "faq_embeddings" 3072).result = Except.error "Embedding count mismatch" ∧
    ∀ op ∈ (FaqCore.syncFaqs (Except.ok ["faq_embeddings"]) (Except.ok ()) true
        (Except.ok (FaqCore.JsonData.arr
          [⟨some "1", some "q", none, some "a", none, none⟩]))
        (fun _ => Except.ok ([[1], [2]] : List (List Int))) (Except.ok ())
        "faq_embeddings" 3072).ops,
      FaqCore.IndexOp.isUpsert op = false :=
  c3_mismatch_aborts Int (Except.ok ["faq_embeddings"]) (Except.ok ()) true
    (Except.ok (FaqCore.JsonData.arr [⟨some "1", some "q", none, some "a", none, none⟩]))
    (fun _ => Except.ok ([[1], [2]] : List (List Int))) (Except.ok ())
    "faq_embeddings" 3072
    [⟨some "1", some "q", none, some "a", none, none⟩]
    [⟨"1", "q", "", "a", "", "", "q a"⟩] [[1], [2]]
    rfl rfl (by simp) rfl rfl (by decide)

/-! ## C5 -/

/-- C5 (counterexample): a zero-record sync run against an index without
the collection returns `{synced := 0, updated := 0, errors := 0}` but its
operation trace contains the collection creation performed by
`ensureCollection` before the fetch — the run does touch the vector index,
contrary to the claim's "does not touch" clause. -/
theorem c5_empty_sync_cex :
    (FaqCore.syncFaqs (Except.ok []) (Except.ok ()) true
        (Except.ok (FaqCore.JsonData.arr []))
        (fun _ => Except.ok ([] : List (List Int))) (Except.ok ())
        "faq_embeddings" 3072).result = Except.ok ⟨0, 0, 0⟩ ∧
    (FaqCore.syncFaqs (Except.ok []) (Except.ok ()) true
        (Except.ok (FaqCore.JsonData.arr []))
        (fun _ => Except.ok ([] : List (List Int))) (Except.ok ())
        "faq_embeddings" 3072).ops =
      [FaqCore.IndexOp.createCollection "faq_embeddings" 3072] ∧
    [FaqCore.IndexOp.createCollection "faq_embeddings" 3072] ≠
      ([] : List (FaqCore.IndexOp Int)) :=
  ⟨rfl, rfl, by simp⟩

/-- C5 (amended): a sync run whose source fetch yields zero records returns
exactly `{synced := 0, updated := 0, errors := 0}` and writes no points (no
upsert is performed); `ensureCollection` still runs first, so the only index
mutation such a run may perform is creating the missing collection. -/
theorem c5_empty_sync (α : Type) (listOutcome : Except String (List String))
    (createOutcome : Except String Unit) (urlConfigured : Bool)
    (fetchOutcome : Except String FaqCore.JsonData)
    (embedBatch : List String → Except String (List (List α)))
    (upsertOutcome : Except String Unit) (collName : String) (dims : Nat)
    (hens : (FaqCore.ensureCollection listOutcome createOutcome collName dims :
      List (FaqCore.IndexOp α) × Except String Unit).2 = Except.ok ())
    (hfetch : FaqCore.fetchFaqsSync urlConfigured fetchOutcome = Except.ok []) :
    (FaqCore.syncFaqs listOutcome createOutcome urlConfigured fetchOutcome
        embedBatch upsertOutcome collName dims).result = Except.ok ⟨0, 0, 0⟩ ∧
    (FaqCore.syncFaqs listOutcome createOutcome urlConfigured fetchOutcome
        embedBatch upsertOutcome collName dims).ops =
      (FaqCore.ensureCollection listOutcome createOutcome collName dims :
        List (FaqCore.IndexOp α) × Except String Unit).1 ∧
    ∀ op ∈ (FaqCore.syncFaqs listOutcome createOutcome urlConfigured fetchOutcome
        embedBatch upsertOutcome collName dims).ops,
      FaqCore.IndexOp.isUpsert op = false := by
  refine ⟨?_, ?_, ?_⟩
  · simp [FaqCore.syncFaqs, hens, hfetch]
  · simp [FaqCore.syncFaqs, hens, hfetch]
  · intro op hop
    simp only [FaqCore.syncFaqs, hens, hfetch, List.isEmpty_nil] at hop
    exact FaqCore.ensureCollection_no_upsert listOutcome createOutcome collName dims op hop

/-- C5 (witness): the amended theorem applied to a concrete zero-record run
(collection already present, so the trace is empty). -/
theorem c5_empty_sync_witness :
    (FaqCore.syncFaqs (Except.ok ["faq_embeddings"]) (Except.ok ()) true
        (Except.ok FaqCore.JsonData.notArr)
        (fun _ => Except.ok ([] : List (List Int))) (Except.ok ())
        "faq_embeddings" 3072).result = Except.ok ⟨0, 0, 0⟩ ∧
    (FaqCore.syncFaqs (Except.ok ["faq_embeddings"]) (Except.ok ()) true
        (Except.ok FaqCore.JsonData.notArr)
        (fun _ => Except.ok ([] : List (List Int))) (Except.ok ())
        "faq_embeddings" 3072).ops =
      (FaqCore.ensureCollection (Except.ok ["faq_embeddings"]) (Except.ok ())
        "faq_embeddings" 3072 : List (FaqCore.IndexOp Int) × Except String Unit).1 ∧
    ∀ op ∈ (FaqCore.syncFaqs (Except.ok ["faq_embeddings"]) (Except.ok ()) true
        (Except.ok FaqCore.JsonData.notArr)
        (fun _ => Except.ok ([] : List (List Int))) (Except.ok ())
        "faq_embeddings" 3072).ops,
      FaqCore.IndexOp.isUpsert op = false :=
  c5_empty_sync Int (Except.ok ["faq_embeddings"]) (Except.ok ()) true
    (Except.ok FaqCore.JsonData.notArr)
    (fun _ => Except.ok ([] : List (List Int))) (Except.ok ())
    "faq_embeddings" 3072 rfl rfl

/-! ## C10 -/

/-- C10: if the fetched source list contains a record with a valid id whose
four bilingual text fields are all absent or empty, the whole sync run (with
the real embedding stage wired in) fails before any upsert: the record's
combined text is empty, `generateEmbedding` rejects empty text, and the
whole-batch failure policy aborts the run instead of skipping the record. -/
theorem c10_empty_record_fails (α : Type) (listOutcome : Except String (List String))
    (createOutcome : Except String Unit) (urlConfigured : Bool)
    (fetchOutcome : Except String FaqCore.JsonData) (apiKey : Option String)
    (remote : String → Except String (Option (List α)))
    (upsertOutcome : Except String Unit) (collName : String) (dims : Nat)
    (faqs : List FaqCore.Faq) (faq : FaqCore.Faq)
    (hfetch : FaqCore.fetchFaqsSync urlConfigured fetchOutcome = Except.ok faqs)
    (hmem : faq ∈ faqs)
    (hid : FaqCore.optTruthy faq.id = true)
    (h1 : FaqCore.optTruthy faq.questionEnglish = false)
    (h2 : FaqCore.optTruthy faq.answerEnglish = false)
    (h3 : FaqCore.optTruthy faq.questionHindi = false)
    (h4 : FaqCore.optTruthy faq.answerHindi = false) :
    FaqCore.isError
      (FaqCore.syncFaqs listOutcome createOutcome urlConfigured fetchOutcome
        (FaqCore.generateEmbeddingsBatch apiKey remote) upsertOutcome
        collName dims).result = true ∧
    ∀ op ∈ (FaqCore.syncFaqs listOutcome createOutcome urlConfigured fetchOutcome
        (FaqCore.generateEmbeddingsBatch apiKey remote) upsertOutcome
        collName dims).ops,
      FaqCore.IndexOp.isUpsert op = false := by
  have hne' : faqs.isEmpty = false := by
    cases faqs with
    | nil => exact absurd hmem (List.not_mem_nil faq)
    | cons a as => rfl
  cases hens : (FaqCore.ensureCollection listOutcome createOutcome collName dims :
      List (FaqCore.IndexOp α) × Except String Unit).2 with
  | error e =>
    constructor
    · simp only [FaqCore.syncFaqs, hens]
      rfl
    · intro op hop
      simp only [FaqCore.syncFaqs, hens] at hop
      exact FaqCore.ensureCollection_no_upsert listOutcome createOutcome collName dims op hop
  | ok u =>
    cases u
    cases hbuild : FaqCore.mapFaqData faqs with
    | error e =>
      constructor
      · simp only [FaqCore.syncFaqs, hens, hfetch, hne', hbuild]
        rfl
      · intro op hop
        simp only [FaqCore.syncFaqs, hens, hfetch, hne', hbuild] at hop
        exact FaqCore.ensureCollection_no_upsert listOutcome createOutcome collName dims op hop
    | ok faqData =>
      obtain ⟨d, hd, hbd⟩ := FaqCore.forall₂_exists_mem_left
        (FaqCore.promiseAll_ok FaqCore.buildFaqDatum faqs faqData hbuild) hmem
      have htext : d.text = "" := by
        unfold FaqCore.buildFaqDatum FaqCore.getFaqId at hbd
        rw [hid] at hbd
        rw [if_neg (by decide)] at hbd
        injection hbd with hbd
        rw [← hbd]
        exact FaqCore.combineFaqText_falsy faq h1 h2 h3 h4
      have hmemtext : "" ∈ faqData.map FaqCore.FaqData.text :=
        List.mem_map.mpr ⟨d, hd, htext⟩
      cases hemb : FaqCore.generateEmbeddingsBatch apiKey remote
          (faqData.map FaqCore.FaqData.text) with
      | error e =>
        constructor
        · simp only [FaqCore.syncFaqs, hens, hfetch, hne', hbuild, hemb]
          rfl
        · intro op hop
          simp only [FaqCore.syncFaqs, hens, hfetch, hne', hbuild, hemb] at hop
          exact FaqCore.ensureCollection_no_upsert listOutcome createOutcome collName dims op hop
      | ok out =>
        exfalso
        have hne2 : (faqData.map FaqCore.FaqData.text).isEmpty = false := by
          cases hmap : faqData.map FaqCore.FaqData.text with
          | nil => rw [hmap] at hmemtext; exact absurd hmemtext (List.not_mem_nil "")
          | cons a as => rfl
        unfold FaqCore.generateEmbeddingsBatch at hemb
        rw [hne2] at hemb
        rw [if_neg (by decide)] at hemb
        have hforall := FaqCore.processBatches_ok
          (FaqCore.generateEmbedding apiKey remote) _ out hemb
        obtain ⟨v, hv, hok⟩ := FaqCore.forall₂_exists_mem_left hforall hmemtext
        have herr := FaqCore.generateEmbedding_text_falsy apiKey remote "" rfl
        rw [hok] at herr
        simp [FaqCore.isError] at herr

/-- C10 (witness): the theorem applied to a one-record source whose record
has id `"7"` and only empty/absent text fields. -/
theorem c10_empty_record_fails_witness :
    FaqCore.isError
      (FaqCore.syncFaqs (Except.ok ["faq_embeddings"]) (Except.ok ()) true
        (Except.ok (FaqCore.JsonData.arr [⟨some "7", none, none, some "", none, some "cat"⟩]))
        (FaqCore.generateEmbeddingsBatch (some "k")
          (fun _ => Except.ok (some [(1 : Int)])))
        (Except.ok ()) "faq_embeddings" 3072).result = true ∧
    ∀ op ∈ (FaqCore.syncFaqs (Except.ok ["faq_embeddings"]) (Except.ok ()) true
        (Except.ok (FaqCore.JsonData.arr [⟨some "7", none, none, some "", none, some "cat"⟩]))
        (FaqCore.generateEmbeddingsBatch (some "k")
          (fun _ => Except.ok (some [(1 : Int)])))
        (Except.ok ()) "faq_embeddings" 3072).ops,
      FaqCore.IndexOp.isUpsert op = false :=
  c10_empty_record_fails Int (Except.ok ["faq_embeddings"]) (Except.ok ()) true
    (Except.ok (FaqCore.JsonData.arr [⟨some "7", none, none, some "", none, some "cat"⟩]))
    (some "k") (fun _ => Except.ok (some [(1 : Int)])) (Except.ok ())
    "faq_embeddings" 3072
    [⟨some "7", none, none, some "", none, some "cat"⟩]
    ⟨some "7", none, none, some "", none, some "cat"⟩
    rfl (List.mem_cons_self _ _) rfl rfl rfl rfl rfl

/-! ## C2 -/

/-- C2: whenever `generateEmbeddingsBatch` succeeds, it returns exactly one
embedding per input text, the embedding at position `i` being the result of
embedding the text at position `i` (order preserved across the batches of
ten); any failing embedding fails the whole call, so no partial list is ever
returned. -/
theorem c2_batch_order (α : Type) (apiKey : Option String)
    (remote : String → Except String (Option (List α)))
    (texts : List String) (out : List (List α))
    (h : FaqCore.generateEmbeddingsBatch apiKey remote texts = Except.ok out) :
    out.length = texts.length ∧
      List.Forall₂
        (fun t v => FaqCore.generateEmbedding apiKey remote t = Except.ok v)
        texts out := by
  unfold FaqCore.generateEmbeddingsBatch at h
  by_cases he : texts.isEmpty
  · rw [if_pos he] at h
    injection h with h
    rw [← h, List.isEmpty_iff.mp he]
    exact ⟨rfl, List.Forall₂.nil⟩
  · rw [if_neg he] at h
    have hf := FaqCore.processBatches_ok (FaqCore.generateEmbedding apiKey remote) texts out h
    exact ⟨hf.length_eq.symm, hf⟩

/-- C2 (witness): the theorem applied to a two-text input with a remote stub
that embeds every text as `[1]`. -/
theorem c2_batch_order_witness :
    ([[1], [1]] : List (List Int)).length = (["a", "b"] : List String).length ∧
      List.Forall₂
        (fun t v =>
          FaqCore.generateEmbedding (some "k")
            (fun _ => Except.ok (some [(1 : Int)])) t = Except.ok v)
        ["a", "b"] [[1], [1]] :=
  c2_batch_order Int (some "k") (fun _ => Except.ok (some [(1 : Int)]))
    ["a", "b"] [[1], [1]] rfl

/-! ## C7 -/

/-- The point dimension expected by the vector index adapter
(`qdrant.js` checks `point.vector.length !== 3072` and creates the
collection with 3072 dimensions by default). -/
def EXPECTED_DIMENSIONS : Nat := 3072

/-- C7 (counterexample): `generateEmbedding` does not enforce the configured
dimension: with a remote stub returning a two-element vector it succeeds on
the non-empty text `"hello"` and returns a vector of length 2, not one of
length `EXPECTED_DIMENSIONS = 3072`. -/
theorem c7_embed_cex :
    FaqCore.generateEmbedding (some "k")
        (fun _ => Except.ok (some [(1 : Int), 2])) "hello" =
      Except.ok [(1 : Int), 2] ∧
    ([(1 : Int), 2]).length ≠ EXPECTED_DIMENSIONS := by
  exact ⟨rfl, by decide⟩

/-- C7 (amended): `generateEmbedding` fails when the credential is absent or
falsy, when it is whitespace-only, and when the text is empty or
whitespace-only after trimming; with valid credential and text it propagates
a remote failure, fails on an absent or empty remote vector, and otherwise
returns the provider's vector unchanged — so its length equals the
configured dimension exactly when the provider produces vectors of that
dimension. -/
theorem c7_embed (α : Type) :
    (∀ (remote : String → Except String (Option (List α))) (text : String),
      FaqCore.isError (FaqCore.generateEmbedding none remote text) = true) ∧
    (∀ (key : String) (remote : String → Except String (Option (List α)))
        (text : String), FaqCore.strTruthy key = false →
      FaqCore.isError (FaqCore.generateEmbedding (some key) remote text) = true) ∧
    (∀ (key : String) (remote : String → Except String (Option (List α)))
        (text : String), FaqCore.strTruthy (FaqCore.jsTrim key) = false →
      FaqCore.isError (FaqCore.generateEmbedding (some key) remote text) = true) ∧
    (∀ (apiKey : Option String)
        (remote : String → Except String (Option (List α))) (text : String),
      FaqCore.strTruthy (FaqCore.jsTrim text) = false →
      FaqCore.isError (FaqCore.generateEmbedding apiKey remote text) = true) ∧
    (∀ (key : String) (remote : String → Except String (Option (List α)))
        (text : String) (e : String),
      FaqCore.strTruthy key = true → FaqCore.strTruthy (FaqCore.jsTrim key) = true →
      FaqCore.strTruthy (FaqCore.jsTrim text) = true →
      remote text = Except.error e →
      FaqCore.generateEmbedding (some key) remote text = Except.error e) ∧
    (∀ (key : String) (remote : String → Except String (Option (List α)))
        (text : String),
      FaqCore.strTruthy key = true → FaqCore.strTruthy (FaqCore.jsTrim key) = true →
      FaqCore.strTruthy (FaqCore.jsTrim text) = true →
      (remote text = Except.ok none ∨ remote text = Except.ok (some [])) →
      FaqCore.isError (FaqCore.generateEmbedding (some key) remote text) = true) ∧
    (∀ (key : String) (remote : String → Except String (Option (List α)))
        (text : String) (v : List α),
      FaqCore.strTruthy key = true → FaqCore.strTruthy (FaqCore.jsTrim key) = true →
      FaqCore.strTruthy (FaqCore.jsTrim text) = true →
      remote text = Except.ok (some v) → v ≠ [] →
      FaqCore.generateEmbedding (some key) remote text = Except.ok v) := by
  refine ⟨fun remote text => rfl, ?_, ?_, ?_, ?_, ?_, ?_⟩
  · intro key remote text hk
    simp [FaqCore.generateEmbedding, hk, FaqCore.isError]
  · intro key remote text hk2
    by_cases hk : FaqCore.strTruthy key
    · by_cases ht : FaqCore.strTruthy (FaqCore.jsTrim text) <;>
        simp [FaqCore.generateEmbedding, hk, hk2, ht, FaqCore.isError]
    · simp [FaqCore.generateEmbedding, hk, FaqCore.isError]
  · intro apiKey remote text ht
    cases apiKey with
    | none => rfl
    | some key =>
      by_cases hk : FaqCore.strTruthy key <;>
        simp [FaqCore.generateEmbedding, hk, ht, FaqCore.isError]
  · intro key remote text e hk hk2 ht hr
    simp [FaqCore.generateEmbedding, hk, hk2, ht, hr]
  · intro key remote text hk hk2 ht hr
    cases hr with
    | inl h => simp [FaqCore.generateEmbedding, hk, hk2, ht, h, FaqCore.isError]
    | inr h => simp [FaqCore.generateEmbedding, hk, hk2, ht, h, FaqCore.isError]
  · intro key remote text v hk hk2 ht hr hv
    simp [FaqCore.generateEmbedding, hk, hk2, ht, hr, hv]

/-- C7 (witness): the amended theorem's clauses applied at concrete inputs:
a missing key, a whitespace-only key, a whitespace-only text, a failing
remote, an empty remote vector, and a successful pass-through. -/
theorem c7_embed_witness :
    FaqCore.isError
        (FaqCore.generateEmbedding none
          (fun _ => Except.ok (some [(1 : Int)])) "hi") = true ∧
    FaqCore.isError
        (FaqCore.generateEmbedding (some " ")
          (fun _ => Except.ok (some [(1 : Int)])) "hi") = true ∧
    FaqCore.isError
        (FaqCore.generateEmbedding (some "k")
          (fun _ => Except.ok (some [(1 : Int)])) "  ") = true ∧
    FaqCore.generateEmbedding (some "k")
        (fun _ => Except.error "boom" : String → Except String (Option (List Int)))
        "hi" = Except.error "boom" ∧
    FaqCore.isError
        (FaqCore.generateEmbedding (some "k")
          (fun _ => Except.ok (some ([] : List Int))) "hi") = true ∧
    FaqCore.generateEmbedding (some "k")
        (fun _ => Except.ok (some [(1 : Int)])) "hi" = Except.ok [(1 : Int)] :=
  ⟨(c7_embed Int).1 _ "hi",
    (c7_embed Int).2.2.1 " " _ "hi" (by decide),
    (c7_embed Int).2.2.2.1 (some "k") _ "  " (by decide),
    (c7_embed Int).2.2.2.2.1 "k" _ "hi" "boom" (by decide) (by decide) (by decide) rfl,
    (c7_embed Int).2.2.2.2.2.1 "k" _ "hi" (by decide) (by decide) (by decide)
      (Or.inr rfl),
    (c7_embed Int).2.2.2.2.2.2 "k" _ "hi" [(1 : Int)] (by decide) (by decide)
      (by decide) rfl (by decide)⟩

/-! ## C1 -/

/-- C1 (counterexample): for the identifier `"faq_0"` the code's point id
(48, the char-sum of the stripped remainder `"0"`, because `parseInt` yields
the falsy `0`) differs from the claim's mapping (455, the char-sum of the
whole identifier, which does not parse as an integer). -/
theorem c1_id_mapping_cex :
    FaqCore.preparePointId "faq_0" = 48 ∧
    FaqCore.claimedPointId "faq_0" = 455 ∧
    FaqCore.preparePointId "faq_0" ≠ FaqCore.claimedPointId "faq_0" := by
  refine ⟨by decide, by decide, by decide⟩

/-- C1 (amended): the point id mapping of `upsertPoints` strips a leading
`faq_` prefix when present and then applies `parseInt`-or-char-sum to the
remainder (char-sum is also used when the parse yields `0`); the mapping is a
pure function of the identifier string, so equal identifiers always receive
equal numeric point ids. -/
theorem c1_id_mapping :
    (∀ id : String, FaqCore.preparePointId id = FaqCore.amendedPointId id) ∧
    (∀ id₁ id₂ : String, id₁ = id₂ →
      FaqCore.preparePointId id₁ = FaqCore.preparePointId id₂) := by
  constructor
  · intro id
    unfold FaqCore.preparePointId FaqCore.amendedPointId
    by_cases h : FaqCore.idHasFaqTag id <;> simp [h]
  · intro id₁ id₂ h
    rw [h]

/-- C1 (witness): the purity conjunct applied at the concrete identifier
`"faq_7"`. -/
theorem c1_id_mapping_witness :
    FaqCore.preparePointId "faq_7" = FaqCore.preparePointId "faq_7" :=
  c1_id_mapping.2 "faq_7" "faq_7" rfl

/-! ## C4 -/

/-- C4: the vector-strategy `getFaqContext` never propagates an exception:
a missing (non-string) query, an empty-after-trim query, a failing
embedding stage, an empty embedding, a failing vector search, and an empty
search result all yield `null` rather than an error. -/
theorem c4_vector_context_no_throw (α : Type) :
    (∀ (embedQuery : String → Except String (List α))
        (clientSearch : List α → Nat → Rat → Except String (List FaqCore.ClientHit)),
      FaqCore.getFaqContextV embedQuery clientSearch none = none) ∧
    (∀ (embedQuery : String → Except String (List α))
        (clientSearch : List α → Nat → Rat → Except String (List FaqCore.ClientHit))
        (q : String),
      FaqCore.strTruthy (FaqCore.jsTrim q) = false →
      FaqCore.getFaqContextV embedQuery clientSearch (some q) = none) ∧
    (∀ (embedQuery : String → Except String (List α))
        (clientSearch : List α → Nat → Rat → Except String (List FaqCore.ClientHit))
        (q e : String),
      embedQuery (FaqCore.jsTrim q) = Except.error e →
      FaqCore.getFaqContextV embedQuery clientSearch (some q) = none) ∧
    (∀ (embedQuery : String → Except String (List α))
        (clientSearch : List α → Nat → Rat → Except String (List FaqCore.ClientHit))
        (q : String),
      embedQuery (FaqCore.jsTrim q) = Except.ok [] →
      FaqCore.getFaqContextV embedQuery clientSearch (some q) = none) ∧
    (∀ (embedQuery : String → Except String (List α))
        (clientSearch : List α → Nat → Rat → Except String (List FaqCore.ClientHit))
        (q e : String) (v : List α),
      embedQuery (FaqCore.jsTrim q) = Except.ok v →
      clientSearch v FaqCore.DEFAULT_LIMIT FaqCore.SCORE_THRESHOLD = Except.error e →
      FaqCore.getFaqContextV embedQuery clientSearch (some q) = none) ∧
    (∀ (embedQuery : String → Except String (List α))
        (clientSearch : List α → Nat → Rat → Except String (List FaqCore.ClientHit))
        (q : String) (v : List α),
      embedQuery (FaqCore.jsTrim q) = Except.ok v →
      clientSearch v FaqCore.DEFAULT_LIMIT FaqCore.SCORE_THRESHOLD = Except.ok [] →
      FaqCore.getFaqContextV embedQuery clientSearch (some q) = none) := by
  refine ⟨fun embedQuery clientSearch => rfl, ?_, ?_, ?_, ?_, ?_⟩
  · intro embedQuery clientSearch q htr
    by_cases hq : FaqCore.strTruthy q <;>
      simp [FaqCore.getFaqContextV, hq, htr]
  · intro embedQuery clientSearch q e hemb
    by_cases hq : FaqCore.strTruthy q
    · by_cases htr : FaqCore.strTruthy (FaqCore.jsTrim q) <;>
        simp [FaqCore.getFaqContextV, hq, htr, hemb]
    · simp [FaqCore.getFaqContextV, hq]
  · intro embedQuery clientSearch q hemb
    by_cases hq : FaqCore.strTruthy q
    · by_cases htr : FaqCore.strTruthy (FaqCore.jsTrim q) <;>
        simp [FaqCore.getFaqContextV, hq, htr, hemb]
    · simp [FaqCore.getFaqContextV, hq]
  · intro embedQuery clientSearch q e v hemb hsearch
    by_cases hq : FaqCore.strTruthy q
    · by_cases htr : FaqCore.strTruthy (FaqCore.jsTrim q)
      · by_cases hv : v.isEmpty <;>
          simp [FaqCore.getFaqContextV, FaqCore.searchVectors, hq, htr, hemb,
            hsearch, hv]
      · simp [FaqCore.getFaqContextV, hq, htr]
    · simp [FaqCore.getFaqContextV, hq]
  · intro embedQuery clientSearch q v hemb hsearch
    by_cases hq : FaqCore.strTruthy q
    · by_cases htr : FaqCore.strTruthy (FaqCore.jsTrim q)
      · by_cases hv : v.isEmpty <;>
          simp [FaqCore.getFaqContextV, FaqCore.searchVectors, hq, htr, hemb,
            hsearch, hv]
      · simp [FaqCore.getFaqContextV, hq, htr]
    · simp [FaqCore.getFaqContextV, hq]

/-- C4 (witness): the theorem's clauses applied at concrete inputs — a
non-string query, a whitespace query, a failing embedding, an empty
embedding, a failing search, and an empty search result. -/
theorem c4_vector_context_no_throw_witness :
    FaqCore.getFaqContextV (fun _ => Except.ok [(1 : Int)])
        (fun _ _ _ => Except.ok []) none = none ∧
    FaqCore.getFaqContextV (fun _ => Except.ok [(1 : Int)])
        (fun _ _ _ => Except.ok []) (some "  ") = none ∧
    FaqCore.getFaqContextV (fun _ => (Except.error "embed down" :
          Except String (List Int)))
        (fun _ _ _ => Except.ok []) (some "hi") = none ∧
    FaqCore.getFaqContextV (fun _ => Except.ok ([] : List Int))
        (fun _ _ _ => Except.ok []) (some "hi") = none ∧
    FaqCore.getFaqContextV (fun _ => Except.ok [(1 : Int)])
        (fun _ _ _ => Except.error "search down") (some "hi") = none ∧
    FaqCore.getFaqContextV (fun _ => Except.ok [(1 : Int)])
        (fun _ _ _ => Except.ok []) (some "hi") = none :=
  ⟨(c4_vector_context_no_throw Int).1 _ _,
    (c4_vector_context_no_throw Int).2.1 _ _ "  " (by decide),
    (c4_vector_context_no_throw Int).2.2.1 _ _ "hi" "embed down" rfl,
    (c4_vector_context_no_throw Int).2.2.2.1 _ _ "hi" rfl,
    (c4_vector_context_no_throw Int).2.2.2.2.1 _ _ "hi" "search down" [(1 : Int)]
      rfl rfl,
    (c4_vector_context_no_throw Int).2.2.2.2.2 _ _ "hi" [(1 : Int)] rfl rfl⟩

/-! ## C8 -/

/-- C8: context formatting is deterministic: a single FAQ with question
`Q1` and answer `A1` renders exactly as `FAQ 1:\nQuestion: Q1\nAnswer: A1`
under both formatters; every output is truncated to the character budget
(2000 by default), so its length never exceeds it; and an empty input
yields the empty string. -/
theorem c8_format_context :
    FaqCore.formatFaqContext 2000
        [⟨some "Q1", none, none, some "A1", none, none, none, none⟩] =
      "FAQ 1:\nQuestion: Q1\nAnswer: A1" ∧
    (∀ (charLimit : Nat) (faqs : List FaqCore.LexFaq),
      (FaqCore.formatFaqContext charLimit faqs).length ≤ charLimit) ∧
    FaqCore.formatFaqContext 2000 [] = "" ∧
    FaqCore.formatFaqContextV
        [⟨1, 1, some "Q1", none, some "A1", none, none, none⟩] =
      "FAQ 1:\nQuestion: Q1\nAnswer: A1" ∧
    (∀ hits : List FaqCore.VHit,
      (FaqCore.formatFaqContextV hits).length ≤ FaqCore.CONTEXT_CHAR_LIMIT) ∧
    FaqCore.formatFaqContextV [] = "" := by
  refine ⟨by decide, ?_, rfl, by decide, ?_, rfl⟩
  · intro charLimit faqs
    cases faqs with
    | nil => exact Nat.zero_le _
    | cons a as =>
      simp only [FaqCore.formatFaqContext, List.isEmpty_cons]
      exact FaqCore.jsSlice_length_le _ charLimit
  · intro hits
    cases hits with
    | nil => exact Nat.zero_le _
    | cons a as =>
      simp only [FaqCore.formatFaqContextV, List.isEmpty_cons]
      exact FaqCore.jsSlice_length_le _ FaqCore.CONTEXT_CHAR_LIMIT

/-! ## C9 -/

/-- C9: for the cached query-path FAQ fetch, a call while the slot is
populated and unexpired returns the identical cached value without invoking
the source fetch (`fetched = false`) and leaves the slot unchanged; and
whenever the fetch path is taken (never-populated or expired slot) and the
source fetch fails, the call does invoke the fetch (`fetched = true`) yet
returns the previously cached value — an empty list if the slot was never
populated — and leaves the slot unchanged, rather than raising. -/
theorem c9_cache
    (ttl : Nat) (cache : FaqCore.FaqCache) (now : Nat)
    (outcome : Except String FaqCore.LexJson) (e : String) :
    (∀ v : List FaqCore.LexFaq, cache.value = some v → now < cache.expiresAt →
      FaqCore.fetchFaqsCached true ttl cache now outcome = ⟨v, cache, false⟩) ∧
    (cache.value = none ∨ cache.expiresAt ≤ now →
      FaqCore.fetchFaqsCached true ttl cache now (Except.error e) =
        ⟨cache.value.getD [], cache, true⟩) := by
  constructor
  · intro v hv hfresh
    simp [FaqCore.fetchFaqsCached, hv, hfresh]
  · intro h
    cases hcv : cache.value with
    | none => simp [FaqCore.fetchFaqsCached, FaqCore.fetchFaqsTry, hcv]
    | some v =>
      rcases h with h | h
      · rw [hcv] at h
        exact Option.noConfusion h
      · have hstale : ¬ now < cache.expiresAt := Nat.not_lt.mpr h
        simp [FaqCore.fetchFaqsCached, FaqCore.fetchFaqsTry, hcv, hstale]

/-- C9 (witness): the theorem applied to a populated unexpired slot (cache
hit, no fetch), to the same slot after expiry with a failing fetch (fetch
invoked, degrades to the stale value), and to a never-populated slot with a
failing fetch (fetch invoked, degrades to the empty list). -/
theorem c9_cache_witness :
    FaqCore.fetchFaqsCached true 60000
        ⟨some [⟨some "q", none, none, some "a", none, none, none, none⟩], 10⟩ 5
        (Except.error "down") =
      ⟨[⟨some "q", none, none, some "a", none, none, none, none⟩],
        ⟨some [⟨some "q", none, none, some "a", none, none, none, none⟩], 10⟩,
        false⟩ ∧
    FaqCore.fetchFaqsCached true 60000
        ⟨some [⟨some "q", none, none, some "a", none, none, none, none⟩], 10⟩ 20
        (Except.error "down") =
      ⟨[⟨some "q", none, none, some "a", none, none, none, none⟩],
        ⟨some [⟨some "q", none, none, some "a", none, none, none, none⟩], 10⟩,
        true⟩ ∧
    FaqCore.fetchFaqsCached true 60000 ⟨none, 0⟩ 20 (Except.error "down") =
      ⟨[], ⟨none, 0⟩, true⟩ :=
  ⟨(c9_cache 60000
      ⟨some [⟨some "q", none, none, some "a", none, none, none, none⟩], 10⟩ 5
      (Except.error "down") "down").1
      [⟨some "q", none, none, some "a", none, none, none, none⟩] rfl (by decide),
    (c9_cache 60000
      ⟨some [⟨some "q", none, none, some "a", none, none, none, none⟩], 10⟩ 20
      (Except.error "down") "down").2 (Or.inr (by decide)),
    (c9_cache 60000 ⟨none, 0⟩ 20 (Except.error "down") "down").2 (Or.inl rfl)⟩

/-! ## C6 -/

/-- C6: for a non-empty FAQ list and a positive result limit, lexical
selection always returns a non-empty sequence of at most `limit` FAQs; a
missing/non-string query, a falsy query, an empty token list, and an
all-zero-score candidate set each fall back to the first `limit` FAQs in
source order; and on the scored path the result is sorted by descending
token-overlap score and contains only positively scoring FAQs (zero-score
candidates are discarded). -/
theorem c6_lexical_selection (limit : Nat) (faqs : List FaqCore.LexFaq)
    (query : Option String) (hne : faqs ≠ []) (hlim : 0 < limit) :
    (FaqCore.selectRelevantFaqs limit faqs query ≠ [] ∧
      (FaqCore.selectRelevantFaqs limit faqs query).length ≤ limit) ∧
    (query = none →
      FaqCore.selectRelevantFaqs limit faqs query = faqs.take limit) ∧
    (∀ q : String, query = some q → FaqCore.strTruthy q = false →
      FaqCore.selectRelevantFaqs limit faqs query = faqs.take limit) ∧
    (∀ q : String, query = some q → FaqCore.lexTokens q = [] →
      FaqCore.selectRelevantFaqs limit faqs query = faqs.take limit) ∧
    (∀ q : String, query = some q →
      FaqCore.lexScored (FaqCore.lexTokens q) faqs = [] →
      FaqCore.selectRelevantFaqs limit faqs query = faqs.take limit) ∧
    (∀ q : String, query = some q → FaqCore.strTruthy q = true →
      FaqCore.lexTokens q ≠ [] →
      FaqCore.lexScored (FaqCore.lexTokens q) faqs ≠ [] →
      List.Pairwise
        (fun f g => FaqCore.lexScore (FaqCore.lexTokens q) g ≤
          FaqCore.lexScore (FaqCore.lexTokens q) f)
        (FaqCore.selectRelevantFaqs limit faqs query) ∧
      ∀ f ∈ FaqCore.selectRelevantFaqs limit faqs query,
        0 < FaqCore.lexScore (FaqCore.lexTokens q) f) := by
  refine ⟨?_, ?_, ?_, ?_, ?_, ?_⟩
  · cases query with
    | none =>
      rw [FaqCore.selectRelevantFaqs_none limit faqs hne]
      exact ⟨FaqCore.take_ne_nil_of_pos hlim hne, List.length_take_le _ _⟩
    | some q =>
      by_cases hq : FaqCore.strTruthy q
      · by_cases htok : FaqCore.lexTokens q = []
        · rw [FaqCore.selectRelevantFaqs_no_tokens limit faqs q hne htok]
          exact ⟨FaqCore.take_ne_nil_of_pos hlim hne, List.length_take_le _ _⟩
        · by_cases hsc : FaqCore.lexScored (FaqCore.lexTokens q) faqs = []
          · rw [FaqCore.selectRelevantFaqs_no_positive limit faqs q hne hsc]
            exact ⟨FaqCore.take_ne_nil_of_pos hlim hne, List.length_take_le _ _⟩
          · rw [FaqCore.selectRelevantFaqs_scored limit faqs q hne hq htok hsc]
            constructor
            · rw [Ne, List.map_eq_nil_iff]
              apply FaqCore.take_ne_nil_of_pos hlim
              intro hnil
              have hperm :=
                List.perm_insertionSort FaqCore.lexRel
                  (FaqCore.lexScored (FaqCore.lexTokens q) faqs)
              rw [hnil] at hperm
              exact hsc hperm.symm.eq_nil
            · rw [List.length_map]
              exact List.length_take_le _ _
      · rw [FaqCore.selectRelevantFaqs_falsy limit faqs q hne
          (Bool.not_eq_true _ ▸ hq)]
        exact ⟨FaqCore.take_ne_nil_of_pos hlim hne, List.length_take_le _ _⟩
  · intro hq
    rw [hq]
    exact FaqCore.selectRelevantFaqs_none limit faqs hne
  · intro q hqe hq
    rw [hqe]
    exact FaqCore.selectRelevantFaqs_falsy limit faqs q hne hq
  · intro q hqe htok
    rw [hqe]
    exact FaqCore.selectRelevantFaqs_no_tokens limit faqs q hne htok
  · intro q hqe hsc
    rw [hqe]
    exact FaqCore.selectRelevantFaqs_no_positive limit faqs q hne hsc
  · intro q hqe hq htok hsc
    rw [hqe]
    rw [FaqCore.selectRelevantFaqs_scored limit faqs q hne hq htok hsc]
    have hsorted : List.Pairwise FaqCore.lexRel
        ((List.insertionSort FaqCore.lexRel
          (FaqCore.lexScored (FaqCore.lexTokens q) faqs)).take limit) :=
      List.Pairwise.sublist (List.take_sublist _ _)
        (List.sorted_insertionSort FaqCore.lexRel _)
    constructor
    · rw [List.pairwise_map]
      refine List.Pairwise.imp_of_mem ?_ hsorted
      intro a b ha hb hab
      have ha' := FaqCore.insertionSort_scored_mem (FaqCore.lexTokens q) faqs a
        (List.take_subset _ _ ha)
      have hb' := FaqCore.insertionSort_scored_mem (FaqCore.lexTokens q) faqs b
        (List.take_subset _ _ hb)
      rw [← ha'.1, ← hb'.1]
      unfold FaqCore.lexRel at hab
      omega
    · intro f hf
      rw [List.mem_map] at hf
      obtain ⟨s, hs, rfl⟩ := hf
      have hsm := FaqCore.insertionSort_scored_mem (FaqCore.lexTokens q) faqs s
        (List.take_subset _ _ hs)
      rw [← hsm.1]
      exact hsm.2

/-- C6 (witness): the theorem applied to the two-FAQ list from the spec's
example (`reset password` / `change email`) and the query `password`. -/
theorem c6_lexical_selection_witness :
    (FaqCore.selectRelevantFaqs 5
        [⟨some "reset password", none, none, none, none, none, none, none⟩,
          ⟨some "change email", none, none, none, none, none, none, none⟩]
        (some "password") ≠ [] ∧
      (FaqCore.selectRelevantFaqs 5
        [⟨some "reset password", none, none, none, none, none, none, none⟩,
          ⟨some "change email", none, none, none, none, none, none, none⟩]
        (some "password")).length ≤ 5) ∧
    ((some "password" : Option String) = none →
      FaqCore.selectRelevantFaqs 5
        [⟨some "reset password", none, none, none, none, none, none, none⟩,
          ⟨some "change email", none, none, none, none, none, none, none⟩]
        (some "password") =
      [⟨some "reset password", none, none, none, none, none, none, none⟩,
        ⟨some "change email", none, none, none, none, none, none, none⟩].take 5) ∧
    (∀ q : String, (some "password" : Option String) = some q →
      FaqCore.strTruthy q = false →
      FaqCore.selectRelevantFaqs 5
        [⟨some "reset password", none, none, none, none, none, none, none⟩,
          ⟨some "change email", none, none, none, none, none, none, none⟩]
        (some "password") =
      [⟨some "reset password", none, none, none, none, none, none, none⟩,
        ⟨some "change email", none, none, none, none, none, none, none⟩].take 5) ∧
    (∀ q : String, (some "password" : Option String) = some q →
      FaqCore.lexTokens q = [] →
      FaqCore.selectRelevantFaqs 5
        [⟨some "reset password", none, none, none, none, none, none, none⟩,
          ⟨some "change email", none, none, none, none, none, none, none⟩]
        (some "password") =
      [⟨some "reset password", none, none, none, none, none, none, none⟩,
        ⟨some "change email", none, none, none, none, none, none, none⟩].take 5) ∧
    (∀ q : String, (some "password" : Option String) = some q →
      FaqCore.lexScored (FaqCore.lexTokens q)
        [⟨some "reset password", none, none, none, none, none, none, none⟩,
          ⟨some "change email", none, none, none, none, none, none, none⟩] = [] →
      FaqCore.selectRelevantFaqs 5
        [⟨some "reset password", none, none, none, none, none, none, none⟩,
          ⟨some "change email", none, none, none, none, none, none, none⟩]
        (some "password") =
      [⟨some "reset password", none, none, none, none, none, none, none⟩,
        ⟨some "change email", none, none, none, none, none, none, none⟩].take 5) ∧
    (∀ q : String, (some "password" : Option String) = some q →
      FaqCore.strTruthy q = true →
      FaqCore.lexTokens q ≠ [] →
      FaqCore.lexScored (FaqCore.lexTokens q)
        [⟨some "reset password", none, none, none, none, none, none, none⟩,
          ⟨some "change email", none, none, none, none, none, none, none⟩] ≠ [] →
      List.Pairwise
        (fun f g => FaqCore.lexScore (FaqCore.lexTokens q) g ≤
          FaqCore.lexScore (FaqCore.lexTokens q) f)
        (FaqCore.selectRelevantFaqs 5
          [⟨some "reset password", none, none, none, none, none, none, none⟩,
            ⟨some "change email", none, none, none, none, none, none, none⟩]
          (some "password")) ∧
      ∀ f ∈ FaqCore.selectRelevantFaqs 5
          [⟨some "reset password", none, none, none, none, none, none, none⟩,
            ⟨some "change email", none, none, none, none, none, none, none⟩]
          (some "password"),
        0 < FaqCore.lexScore (FaqCore.lexTokens q) f) :=
  c6_lexical_selection 5
    [⟨some "reset password", none, none, none, none, none, none, none⟩,
      ⟨some "change email", none, none, none, none, none, none, none⟩]
    (some "password") (List.cons_ne_nil _ _) (by decide)
